import Mathlib

/-!
Shallow embedding of the course-recommendation core of `src/app.py`
(CourseMatcher in the specification), together with the request boundary of
the two Flask handlers that feed it (`index` for the results page and
`download` for the PDF slip).

Modelling conventions:
* A pandas DataFrame row becomes a `CourseRecord`; the catalog DataFrame
  becomes a `List CourseRecord` in row order (`df[mask]` preserves row order,
  so it is `List.filter`).
* Python `int` scores become `Int`.
* `Series.str.contains(pat, case=False, na=False)` uses pandas' default
  `regex=True`, i.e. `re.search(pat, s, re.IGNORECASE)`.  Python's full
  regular-expression language is not embedded; we model the fragment this
  application exercises, as described at `compilePattern`.
* Case-insensitivity (`.lower()`, `re.IGNORECASE`) is modelled with
  `Char.toLower`, i.e. at ASCII, which covers the catalog data and form
  inputs of this application.
-/

namespace CourseApp

/-- One row of `courses.csv` as loaded into `COURSE_DATA` (columns
`course_name, faculty, min_jamb, required_subjects, duration, careers`);
`required_subjects` is forced to string by `astype(str)` at load time. -/
structure CourseRecord where
  course_name : String
  faculty : String
  min_jamb : Int
  required_subjects : String
  duration : String
  careers : String
deriving DecidableEq

/-- The status strings returned by `recommend_courses`:
`'found'`, `'alternative'`, `'not_found'` — exactly these three. -/
inductive Status where
  | found
  | alternative
  | not_found
deriving DecidableEq

/-- Lower-case a character list; models Python `.lower()` / `re.IGNORECASE`
at ASCII. -/
def lowerList (cs : List Char) : List Char := cs.map Char.toLower

/-- Token of a compiled subject pattern: an ordinary character matched
case-insensitively, or the regex wildcard `.` which matches any character. -/
inductive Pat where
  | lit (c : Char)
  | dot
deriving DecidableEq

/-- The regular-expression metacharacters of Python `re` other than `.`
(whose wildcard meaning is embedded).  Patterns containing any of these are
outside the modelled fragment, except for the unterminated-group case
detected by `unterminatedGroup`. -/
def regexSpecial : List Char :=
  ['*', '+', '?', '(', ')', '[', ']', '\x7b', '\x7d', '\\', '|', '^', '$']

/-- A pattern containing `(` but neither `)` nor an escape `\` nor a
character class `[` has an unclosed group, and `re.compile` raises
`re.error` on it (``missing ), unterminated subpattern``).  This is the
pattern-compilation failure mode modelled for this application. -/
def unterminatedGroup (pat : String) : Bool :=
  pat.data.any (fun c => c == '(') &&
  !(pat.data.any (fun c => c == ')')) &&
  !(pat.data.any (fun c => c == '\\')) &&
  !(pat.data.any (fun c => c == '['))

/-- Models the compilation of the `preferred_subject` argument that pandas
`str.contains(pat, case=False, na=False)` performs with its default
`regex=True`:
* a pattern with an unterminated group (see `unterminatedGroup`) fails to
  compile, as in Python (`some (Except.error ())`);
* a pattern free of the metacharacters in `regexSpecial` compiles to a
  token list in which `.` is the any-character wildcard and every other
  character is a case-insensitive literal, exactly Python's semantics for
  such patterns;
* any other pattern is outside the modelled regex fragment (`none`). -/
def compilePattern (pat : String) : Option (Except Unit (List Pat)) :=
  if unterminatedGroup pat then some (Except.error ()) else
  if pat.data.any (fun c => regexSpecial.contains c) then none else
  some (Except.ok (pat.data.map (fun c => if c == '.' then Pat.dot else Pat.lit c)))

/-- One token against one character: `.` matches anything, a literal matches
case-insensitively (`re.IGNORECASE`). -/
def tokMatch (t : Pat) (c : Char) : Bool :=
  match t with
  | Pat.dot => true
  | Pat.lit a => a.toLower == c.toLower

/-- Whether the compiled pattern matches a prefix of the character list. -/
def matchHere : List Pat → List Char → Bool
  | [], _ => true
  | _ :: _, [] => false
  | t :: ts, c :: cs => tokMatch t c && matchHere ts cs

/-- `re.search` over the modelled fragment: the pattern matches at some
position of the string. -/
def searchToks (ts : List Pat) : List Char → Bool
  | [] => matchHere ts []
  | c :: cs => matchHere ts (c :: cs) || searchToks ts cs

/-- `mask_score` (line 84 of `src/app.py`): `df['min_jamb'] <= jamb_score`. -/
def maskScore (jamb_score : Int) (r : CourseRecord) : Bool :=
  r.min_jamb ≤ jamb_score

/-- `mask_subject` (line 88): the compiled subject pattern is searched in
`required_subjects`, case-insensitively. -/
def maskSubject (toks : List Pat) (r : CourseRecord) : Bool :=
  searchToks toks r.required_subjects.data

/-- `mask_faculty` (line 92): lower-cased equality of faculty names. -/
def maskFaculty (preferred_faculty : String) (r : CourseRecord) : Bool :=
  lowerList r.faculty.data == lowerList preferred_faculty.data

/-- The sentinel test `preferred_faculty.lower() != 'all'` (line 91),
stated positively. -/
def isAllSentinel (preferred_faculty : String) : Bool :=
  lowerList preferred_faculty.data == ['a', 'l', 'l']

/-- `combined_mask` (lines 91-95): score ∧ subject, also ∧ faculty unless
the faculty is the `'all'` sentinel. -/
def combinedMask (jamb_score : Int) (toks : List Pat) (preferred_faculty : String)
    (r : CourseRecord) : Bool :=
  if isAllSentinel preferred_faculty then
    maskScore jamb_score r && maskSubject toks r
  else
    maskScore jamb_score r && maskSubject toks r && maskFaculty preferred_faculty r

/-- The comparison underlying `sort_values(by='min_jamb', ascending=False)`:
`a` may precede `b` when `b.min_jamb ≤ a.min_jamb`. -/
def jambGE (a b : CourseRecord) : Prop := b.min_jamb ≤ a.min_jamb

instance : DecidableRel jambGE := fun a b => Int.decLe b.min_jamb a.min_jamb

instance : IsTotal CourseRecord jambGE :=
  ⟨fun a b => le_total b.min_jamb a.min_jamb⟩

instance : IsTrans CourseRecord jambGE :=
  ⟨fun _ _ _ hab hbc => le_trans hbc hab⟩

/-- Models `df.sort_values(by='min_jamb', ascending=False)` (lines 102 and
110): a permutation of the rows that is non-increasing in `min_jamb`.
pandas' default sort kind is `quicksort`, which leaves the relative order of
rows with equal `min_jamb` unspecified; this model uses an insertion sort,
and no theorem below relies on its particular tie order. -/
def sortDesc (l : List CourseRecord) : List CourseRecord :=
  List.insertionSort jambGE l

/-- `recommend_courses` (lines 72-114 of `src/app.py`), with the
module-level `COURSE_DATA` passed explicitly as `catalog`:
* empty catalog: `(pd.DataFrame(), 'not_found')` before any mask is built;
* otherwise the subject pattern is compiled (`none` = outside the modelled
  regex fragment, `Except.error` = `re.error` raised by `str.contains`);
* non-empty exact intersection: sorted descending, `'found'`;
* otherwise the score-only filter over the full frame: sorted descending and
  `'alternative'` if non-empty, else `(pd.DataFrame(), 'not_found')`. -/
def recommend_courses (catalog : List CourseRecord) (jamb_score : Int)
    (preferred_subject preferred_faculty : String) :
    Option (Except Unit (List CourseRecord × Status)) :=
  if catalog.isEmpty then some (Except.ok ([], Status.not_found)) else
  match compilePattern preferred_subject with
  | none => none
  | some (Except.error e) => some (Except.error e)
  | some (Except.ok toks) =>
    if (catalog.filter (combinedMask jamb_score toks preferred_faculty)).isEmpty then
      if (catalog.filter (maskScore jamb_score)).isEmpty then
        some (Except.ok ([], Status.not_found))
      else
        some (Except.ok (sortDesc (catalog.filter (maskScore jamb_score)), Status.alternative))
    else
      some (Except.ok (sortDesc (catalog.filter (combinedMask jamb_score toks preferred_faculty)),
        Status.found))

/-- Case-insensitive prefix test on character lists, using the same
character comparison as the literal tokens of `matchHere`. -/
def isPrefixCI : List Char → List Char → Bool
  | [], _ => true
  | _ :: _, [] => false
  | a :: as, b :: bs => (a.toLower == b.toLower) && isPrefixCI as bs

/-- Case-insensitive contiguous-substring test on character lists. -/
def isSubstrCI (p : List Char) : List Char → Bool
  | [] => isPrefixCI p []
  | c :: cs => isPrefixCI p (c :: cs) || isSubstrCI p cs

/-- Modelled from the spec's words (§3): the subject filter as "substring /
case-insensitive" matching — `pat` occurs as a case-insensitive contiguous
substring of `s`.  Stated for comparison with the source's regex-based
filter `maskSubject`; the source itself does not implement this. -/
def specSubstringCI (pat s : String) : Bool := isSubstrCI pat.data s.data

/-- A subject string that compiles to all-literal tokens: no regex
metacharacter and no `.` wildcard. -/
def plainLiteral (subj : String) : Bool :=
  subj.data.all (fun c => !(regexSpecial.contains c) && !(c == '.'))

/-- A subject string inside the modelled regex fragment: ordinary
characters and `.` wildcards only. -/
def literalOrDot (subj : String) : Bool :=
  subj.data.all (fun c => !(regexSpecial.contains c))

/-- One invocation of `recommend_courses` against the process state: the
function reads the module-level `COURSE_DATA`, works only on
`df = COURSE_DATA.copy()` and the fresh frames produced by filtering and
sorting, and never assigns the module-level name, so the stored catalog
after the call is the one before it.  Modelled as explicit state passing:
`(result, catalog after the call)`. -/
def recommend_courses_proc (state : List CourseRecord) (jamb_score : Int)
    (preferred_subject preferred_faculty : String) :
    Option (Except Unit (List CourseRecord × Status)) × List CourseRecord :=
  (recommend_courses state jamb_score preferred_subject preferred_faculty, state)

/-- The status strings rendered into the template (`search_status`). -/
def statusStr : Status → String
  | Status.found => "found"
  | Status.alternative => "alternative"
  | Status.not_found => "not_found"

/-- The form fields both POST handlers read:
`request.form['jamb']`, `request.form['subject']`, `request.form['faculty']`. -/
structure Form where
  jamb : String
  subject : String
  faculty : String
deriving DecidableEq

/-- Strip leading and trailing whitespace, as Python `int(str)` does before
parsing. -/
def stripWS (cs : List Char) : List Char :=
  ((cs.dropWhile Char.isWhitespace).reverse.dropWhile Char.isWhitespace).reverse

/-- Numeric value of a digit list. -/
def digitsVal (cs : List Char) : Nat :=
  cs.foldl (fun n c => 10 * n + (c.toNat - 48)) 0

/-- Models Python `int(s)` on form input: optional surrounding whitespace,
optional sign, then at least one ASCII digit; anything else raises
`ValueError`, modelled as `none`.  (Python also accepts digit-group
underscores and non-ASCII digits; those are outside the modelled inputs.) -/
def parseIntPy (s : String) : Option Int :=
  match stripWS s.data with
  | [] => none
  | '-' :: rest =>
    if rest.isEmpty then none else
    if rest.all Char.isDigit then some (-(digitsVal rest : Int)) else none
  | '+' :: rest =>
    if rest.isEmpty then none else
    if rest.all Char.isDigit then some ((digitsVal rest : Int)) else none
  | c :: rest =>
    if (c :: rest).all Char.isDigit then some ((digitsVal (c :: rest) : Int)) else none

/-- The POST branch of the `index` route (lines 196-218 of `src/app.py`),
reduced to the data handed to the template: the result records and the
status string.  `int(request.form['jamb'])` raising `ValueError` is caught
and yields `results = []`, `search_status = 'not_found'`; any exception out
of `recommend_courses` (such as `re.error` from an invalid subject pattern)
is caught by the second handler with the same outcome.  `none` propagates
"outside the modelled regex fragment". -/
def index_post (catalog : List CourseRecord) (form : Form) :
    Option (List CourseRecord × String) :=
  match parseIntPy form.jamb with
  | none => some ([], "not_found")
  | some jamb =>
    match recommend_courses catalog jamb form.subject form.faculty with
    | none => none
    | some (Except.error _) => some ([], "not_found")
    | some (Except.ok (cs, st)) => some (cs, statusStr st)

/-- Response of the `download` route: a PDF built from the matched courses
(bytes not modelled; the filename is `f'ui_recommendation_slip_{jamb}.pdf'`),
or the `except` branch `("Error generating PDF...", 500)`. -/
inductive DownloadResponse where
  | pdfFile (courses : List CourseRecord) (filename : String)
  | serverError (httpStatus : Nat)
deriving DecidableEq

/-- The `download` route (lines 220-242 of `src/app.py`): it re-runs
`recommend_courses` on the posted fields; any exception in the body —
including `ValueError` from `int(request.form['jamb'])` — is caught by the
single `except` clause, which returns an error string with HTTP status 500.
There is no `not_found` degradation path in this handler. -/
def download_post (catalog : List CourseRecord) (form : Form) :
    Option DownloadResponse :=
  match parseIntPy form.jamb with
  | none => some (DownloadResponse.serverError 500)
  | some jamb =>
    match recommend_courses catalog jamb form.subject form.faculty with
    | none => none
    | some (Except.error _) => some (DownloadResponse.serverError 500)
    | some (Except.ok (cs, _)) =>
      some (DownloadResponse.pdfFile cs ("ui_recommendation_slip_" ++ toString jamb ++ ".pdf"))

/-! Concrete data for witnesses, following the scenario of spec §8. -/

/-- Scenario record: Medicine, Sciences, cut-off 280. -/
def demoMed : CourseRecord :=
  ⟨ "Medicine", "Sciences", 280, "Biology,Chemistry", "6 years", "Doctor"⟩

/-- Scenario record: Law, Arts, cut-off 250. -/
def demoLaw : CourseRecord :=
  ⟨ "Law", "Arts", 250, "Literature", "5 years", "Lawyer"⟩

/-- The two-course scenario catalog of spec §8. -/
def demoCatalog : List CourseRecord := [demoMed, demoLaw]

/-- A minimal record whose `required_subjects` is the string `abc`. -/
def recAbc : CourseRecord := ⟨ "X", "F", 200, "abc", "4", "c"⟩

/-- The compiled tokens of the subject `Chemistry`. -/
def chemToks : List Pat :=
  [Pat.lit 'C', Pat.lit 'h', Pat.lit 'e', Pat.lit 'm', Pat.lit 'i',
   Pat.lit 's', Pat.lit 't', Pat.lit 'r', Pat.lit 'y']

/-! Helper lemmas shared by the claim theorems. -/

instance instDecEqExceptResult {α : Type} [DecidableEq α] : DecidableEq (Except Unit α) :=
  fun a b =>
    match a, b with
    | Except.error _, Except.error _ => isTrue (by rfl)
    | Except.ok x, Except.ok y =>
      if h : x = y then isTrue (by rw [h]) else
      isFalse (by intro hc; cases hc; exact h rfl)
    | Except.error _, Except.ok _ => isFalse (by intro hc; cases hc)
    | Except.ok _, Except.error _ => isFalse (by intro hc; cases hc)

lemma filter_isEmpty_false {p : CourseRecord → Bool} {l : List CourseRecord}
    (h : l.filter p ≠ []) : l.isEmpty = false := by
  cases l with
  | nil => exact absurd rfl h
  | cons a t => rfl

lemma isEmpty_true_of_eq_nil {l : List CourseRecord} (h : l = []) :
    l.isEmpty = true := by

  rw [h]; rfl

lemma isEmpty_false_of_ne_nil {l : List CourseRecord} (h : l ≠ []) :
    l.isEmpty = false := by
  cases l with
  | nil => exact absurd rfl h
  | cons a t => rfl

lemma sortDesc_perm (l : List CourseRecord) : (sortDesc l).Perm l :=
  List.perm_insertionSort jambGE l

lemma sortDesc_sorted (l : List CourseRecord) : List.Sorted jambGE (sortDesc l) :=
  List.sorted_insertionSort jambGE l

lemma sortDesc_ne_nil {l : List CourseRecord} (h : l ≠ []) : sortDesc l ≠ [] := by
  intro hs
  exact h (List.Perm.eq_nil (hs ▸ (sortDesc_perm l).symm))

lemma mem_sortDesc {r : CourseRecord} {l : List CourseRecord} :
    r ∈ sortDesc l ↔ r ∈ l :=
  (sortDesc_perm l).mem_iff

lemma maskScore_le {j : Int} {r : CourseRecord} (h : maskScore j r = true) :
    r.min_jamb ≤ j :=
  of_decide_eq_true h

lemma combinedMask_score {j : Int} {toks : List Pat} {fac : String} {r : CourseRecord}
    (h : combinedMask j toks fac r = true) : maskScore j r = true := by
  unfold combinedMask at h
  split at h
  · exact (Bool.and_eq_true _ _ |>.mp h).1
  · exact (Bool.and_eq_true _ _ |>.mp (Bool.and_eq_true _ _ |>.mp h).1).1

lemma filter_combined_empty_of_score_empty {catalog : List CourseRecord} {j : Int}
    {toks : List Pat} {fac : String}
    (h : catalog.filter (maskScore j) = []) :
    catalog.filter (combinedMask j toks fac) = [] := by
  rw [List.filter_eq_nil_iff] at h ⊢
  intro a ha hc
  exact h a ha (combinedMask_score hc)

lemma compile_of_literalOrDot {subj : String} (h : literalOrDot subj = true) :
    compilePattern subj =
      some (Except.ok (subj.data.map (fun c => if c == '.' then Pat.dot else Pat.lit c))) := by
  unfold literalOrDot at h
  rw [List.all_eq_true] at h
  have hParen : subj.data.any (fun c => c == '(') = false := by
    rw [Bool.eq_false_iff]
    intro hc
    rw [List.any_eq_true] at hc
    obtain ⟨c, hcmem, hceq⟩ := hc
    have := h c hcmem
    rw [eq_of_beq hceq] at this
    simp [regexSpecial] at this
  have hSpec : subj.data.any (fun c => regexSpecial.contains c) = false := by
    rw [Bool.eq_false_iff]
    intro hc
    rw [List.any_eq_true] at hc
    obtain ⟨c, hcmem, hceq⟩ := hc
    have := h c hcmem
    rw [hceq] at this
    simp at this
  have hUg : unterminatedGroup subj = false := by
    unfold unterminatedGroup
    rw [hParen]
    rfl
  unfold compilePattern
  rw [hUg, hSpec]
  rfl

lemma compile_of_plainLiteral {subj : String} (h : plainLiteral subj = true) :
    compilePattern subj = some (Except.ok (subj.data.map Pat.lit)) := by
  unfold plainLiteral at h
  rw [List.all_eq_true] at h
  have hLit : literalOrDot subj = true := by
    unfold literalOrDot
    rw [List.all_eq_true]
    intro c hc
    exact (Bool.and_eq_true _ _ |>.mp (h c hc)).1
  rw [compile_of_literalOrDot hLit]
  congr 2
  apply List.map_congr_left
  intro c hc
  have hdot : (c == '.') = false := by
    have h2 := (Bool.and_eq_true _ _ |>.mp (h c hc)).2
    cases hcd : (c == '.') with
    | false => rfl
    | true => rw [hcd] at h2; exact absurd h2 (by decide)
  rw [hdot]
  rfl

lemma matchHere_map_lit (cs : List Char) :
    ∀ s : List Char, matchHere (cs.map Pat.lit) s = isPrefixCI cs s := by
  induction cs with
  | nil => intro s; cases s <;> rfl
  | cons a as ih =>
    intro s
    cases s with
    | nil => rfl
    | cons b bs => simp [matchHere, isPrefixCI, tokMatch, ih]

lemma searchToks_map_lit (cs : List Char) :
    ∀ s : List Char, searchToks (cs.map Pat.lit) s = isSubstrCI cs s := by
  intro s
  induction s with
  | nil => simp [searchToks, isSubstrCI, matchHere_map_lit]
  | cons c t ih => simp [searchToks, isSubstrCI, matchHere_map_lit, ih]

/-! Claim theorems. -/

/-- C1: for every catalog and profile whose subject pattern compiles, if the
exact-intersection set (score ∧ subject, also ∧ faculty unless the faculty
is the `all` sentinel) is empty but the score-only set is non-empty, then
the matcher returns status `alternative` and a course list that is exactly
the score-only set — both the subject and the faculty filter are dropped —
sorted descending by `min_jamb`. -/
theorem C1_fallback_drops_both_filters (catalog : List CourseRecord) (j : Int)
    (subj fac : String) (toks : List Pat)
    (hc : compilePattern subj = some (Except.ok toks))
    (hexact : catalog.filter (combinedMask j toks fac) = [])
    (hscore : catalog.filter (maskScore j) ≠ []) :
    ∃ cs, recommend_courses catalog j subj fac = some (Except.ok (cs, Status.alternative)) ∧
      cs.Perm (catalog.filter (maskScore j)) ∧ List.Sorted jambGE cs := by
  have hcat : catalog.isEmpty = false := filter_isEmpty_false hscore
  have h1 : (catalog.filter (combinedMask j toks fac)).isEmpty = true :=
    isEmpty_true_of_eq_nil hexact
  have h2 : (catalog.filter (maskScore j)).isEmpty = false :=
    isEmpty_false_of_ne_nil hscore
  refine ⟨sortDesc (catalog.filter (maskScore j)), ?_, sortDesc_perm _, sortDesc_sorted _⟩
  unfold recommend_courses
  rw [hcat, hc]
  simp [h1, h2]

/-- Witness for C1: the spec §8 scenario with score 260, subject
`Chemistry`, faculty `all`: the exact intersection is empty (Medicine's
cut-off 280 exceeds 260, Law does not require Chemistry) and the fallback
returns Law with status `alternative`. -/
theorem C1_witness :
    ∃ cs, recommend_courses demoCatalog 260 "Chemistry" "all" =
        some (Except.ok (cs, Status.alternative)) ∧
      cs.Perm (demoCatalog.filter (maskScore 260)) ∧ List.Sorted jambGE cs :=
  C1_fallback_drops_both_filters demoCatalog 260 "Chemistry" "all" chemToks
    (by rfl) (by rfl) (by decide)

/-- C2: for every catalog and profile whose subject pattern compiles, if the
exact-intersection set is non-empty, the matcher returns status `found` and
a course list that is exactly that set sorted descending by `min_jamb`. -/
theorem C2_exact_intersection_found (catalog : List CourseRecord) (j : Int)
    (subj fac : String) (toks : List Pat)
    (hc : compilePattern subj = some (Except.ok toks))
    (hex : catalog.filter (combinedMask j toks fac) ≠ []) :
    ∃ cs, recommend_courses catalog j subj fac = some (Except.ok (cs, Status.found)) ∧
      cs.Perm (catalog.filter (combinedMask j toks fac)) ∧ List.Sorted jambGE cs := by
  have hcat : catalog.isEmpty = false := filter_isEmpty_false hex
  have h1 : (catalog.filter (combinedMask j toks fac)).isEmpty = false :=
    isEmpty_false_of_ne_nil hex
  refine ⟨sortDesc (catalog.filter (combinedMask j toks fac)), ?_,
    sortDesc_perm _, sortDesc_sorted _⟩
  unfold recommend_courses
  rw [hcat, hc]
  simp [h1]

/-- Witness for C2: the spec §8 scenario with score 300, subject
`Chemistry`, faculty `all`: Medicine is an exact match and the status is
`found`. -/
theorem C2_witness :
    ∃ cs, recommend_courses demoCatalog 300 "Chemistry" "all" =
        some (Except.ok (cs, Status.found)) ∧
      cs.Perm (demoCatalog.filter (combinedMask 300 chemToks "all")) ∧
      List.Sorted jambGE cs :=
  C2_exact_intersection_found demoCatalog 300 "Chemistry" "all" chemToks
    (by rfl) (by decide)

/-- C3: for every catalog and profile (with a compiling subject pattern, or
an empty catalog with any subject at all), if no record passes the score
filter then the matcher returns status `not_found` with an empty course
list; in particular an empty catalog always yields `not_found`. -/
theorem C3_score_only_empty_not_found (catalog : List CourseRecord) (j : Int)
    (subj fac : String)
    (hp : catalog = [] ∨ ∃ toks, compilePattern subj = some (Except.ok toks))
    (hs : catalog.filter (maskScore j) = []) :
    recommend_courses catalog j subj fac = some (Except.ok ([], Status.not_found)) := by
  cases hp with
  | inl hnil => subst hnil; rfl
  | inr hex =>
    obtain ⟨toks, hc⟩ := hex
    cases hcat : catalog.isEmpty with
    | true =>
      unfold recommend_courses
      rw [hcat]
      simp
    | false =>
      have h1 : (catalog.filter (combinedMask j toks fac)).isEmpty = true :=
        isEmpty_true_of_eq_nil (filter_combined_empty_of_score_empty hs)
      have h2 : (catalog.filter (maskScore j)).isEmpty = true := isEmpty_true_of_eq_nil hs
      unfold recommend_courses
      rw [hcat, hc]
      simp [h1, h2]

/-- Witness for C3: score 100 is below both cut-offs of the scenario
catalog, so the matcher returns `not_found` with no courses. -/
theorem C3_witness :
    recommend_courses demoCatalog 100 "x" "all" =
      some (Except.ok ([], Status.not_found)) :=
  C3_score_only_empty_not_found demoCatalog 100 "x" "all"
    (Or.inr ⟨[Pat.lit 'x'], by rfl⟩) (by rfl)

/-- C4: every defined result of the matcher carries one of the three
statuses `found`, `alternative`, `not_found`, and its course list is empty
exactly when the status is `not_found`. -/
theorem C4_status_trichotomy_empty_iff (catalog : List CourseRecord) (j : Int)
    (subj fac : String) (cs : List CourseRecord) (st : Status)
    (h : recommend_courses catalog j subj fac = some (Except.ok (cs, st))) :
    (st = Status.found ∨ st = Status.alternative ∨ st = Status.not_found) ∧
    (cs = [] ↔ st = Status.not_found) := by
  refine ⟨?_, ?_⟩
  · cases st
    · exact Or.inl rfl
    · exact Or.inr (Or.inl rfl)
    · exact Or.inr (Or.inr rfl)
  unfold recommend_courses at h
  split at h
  · simp only [Option.some.injEq, Except.ok.injEq, Prod.mk.injEq] at h
    obtain ⟨h1, h2⟩ := h
    subst h1
    subst h2
    simp
  · split at h
    · simp at h
    · simp at h
    · split at h
      · split at h
        · simp only [Option.some.injEq, Except.ok.injEq, Prod.mk.injEq] at h
          obtain ⟨h1, h2⟩ := h
          subst h1
          subst h2
          simp
        · rename_i halt
          simp only [Option.some.injEq, Except.ok.injEq, Prod.mk.injEq] at h
          obtain ⟨h1, h2⟩ := h
          subst h1
          subst h2
          have hne : catalog.filter (maskScore j) ≠ [] := by
            intro hn
            exact halt (isEmpty_true_of_eq_nil hn)
          simp [sortDesc_ne_nil hne]
      · rename_i toks heq hres
        simp only [Option.some.injEq, Except.ok.injEq, Prod.mk.injEq] at h
        obtain ⟨h1, h2⟩ := h
        subst h1
        subst h2
        have hne : catalog.filter (combinedMask j toks fac) ≠ [] := by
          intro hn
          exact hres (isEmpty_true_of_eq_nil hn)
        simp [sortDesc_ne_nil hne]

/-- Witness for C4: at the `found` scenario the returned list `[Medicine]`
is non-empty and the status is one of the three. -/
theorem C4_witness :
    (Status.found = Status.found ∨ Status.found = Status.alternative ∨
      Status.found = Status.not_found) ∧
    ([demoMed] = [] ↔ Status.found = Status.not_found) :=
  C4_status_trichotomy_empty_iff demoCatalog 300 "Chemistry" "all" [demoMed]
    Status.found (by rfl)

/-- C5 counterexample: the claim says the subject filter is plain
case-insensitive substring containment, but the source calls pandas
`str.contains` with its default `regex=True`.  The subject `a.c` compiles
with `.` as the any-character wildcard, so the filter admits a record whose
`required_subjects` is `abc`, although `a.c` is not a substring of `abc`. -/
theorem C5_counterexample :
    compilePattern "a.c" = some (Except.ok [Pat.lit 'a', Pat.dot, Pat.lit 'c']) ∧
    maskSubject [Pat.lit 'a', Pat.dot, Pat.lit 'c'] recAbc = true ∧
    specSubstringCI "a.c" recAbc.required_subjects = false :=
  ⟨rfl, rfl, rfl⟩

/-- C5 (amended): the subject filter interprets `profile.subject` as a
case-insensitive regular-expression pattern (pandas `str.contains`, default
`regex=True`); for a subject free of regex metacharacters this coincides
with case-insensitive substring containment of `required_subjects`, and the
empty subject matches every record. -/
theorem C5_subject_filter_regex_substring (subj : String) (r : CourseRecord)
    (h : plainLiteral subj = true) :
    (∃ toks, compilePattern subj = some (Except.ok toks) ∧
      maskSubject toks r = specSubstringCI subj r.required_subjects) ∧
    (∃ etoks, compilePattern "" = some (Except.ok etoks) ∧
      maskSubject etoks r = true) := by
  constructor
  · refine ⟨subj.data.map Pat.lit, compile_of_plainLiteral h, ?_⟩
    unfold maskSubject specSubstringCI
    exact searchToks_map_lit subj.data r.required_subjects.data
  · refine ⟨[], rfl, ?_⟩
    unfold maskSubject
    cases r.required_subjects.data <;> rfl

/-- Witness for C5: the metacharacter-free subject `Chem` behaves as a
substring test on Medicine's `Biology,Chemistry`, and the empty subject
matches it too. -/
theorem C5_witness :
    (∃ toks, compilePattern "Chem" = some (Except.ok toks) ∧
      maskSubject toks demoMed = specSubstringCI "Chem" demoMed.required_subjects) ∧
    (∃ etoks, compilePattern "" = some (Except.ok etoks) ∧
      maskSubject etoks demoMed = true) :=
  C5_subject_filter_regex_substring "Chem" demoMed (by decide)

/-- C6 counterexample: the claim says the matcher is total on every subject
string, but a subject with an unterminated regex group — here `(` — makes
the `str.contains` call raise `re.error` on a non-empty catalog, modelled as
the `Except.error` outcome. -/
theorem C6_counterexample :
    recommend_courses [recAbc] 300 "(" "all" = some (Except.error ()) := rfl

lemma recommend_ok_of_compiled {catalog : List CourseRecord} {j : Int}
    {subj fac : String} {toks : List Pat}
    (hc : compilePattern subj = some (Except.ok toks)) :
    ∃ v, recommend_courses catalog j subj fac = some (Except.ok v) := by
  cases hcat : catalog.isEmpty with
  | true =>
    refine ⟨([], Status.not_found), ?_⟩
    unfold recommend_courses
    rw [hcat]
    simp
  | false =>
    unfold recommend_courses
    rw [hcat, hc]
    by_cases h1 : (catalog.filter (combinedMask j toks fac)).isEmpty = true
    · by_cases h2 : (catalog.filter (maskScore j)).isEmpty = true
      · exact ⟨([], Status.not_found), by simp [h1, h2]⟩
      · exact ⟨(sortDesc (catalog.filter (maskScore j)), Status.alternative),
          by simp [h1, h2]⟩
    · exact ⟨(sortDesc (catalog.filter (combinedMask j toks fac)), Status.found),
        by simp [h1]⟩

/-- C6 (amended): the matcher returns a defined `MatchResult` for every
catalog, score, faculty, and every subject inside the compiling fragment —
in particular any subject free of the regex metacharacters of
`regexSpecial`, which covers the empty subject and unmatched faculty names;
but it is not total on arbitrary subject strings: an invalid regex pattern
such as `(` raises a pattern-compilation error out of `recommend_courses`
(caught only by the route handlers). -/
theorem C6_defined_result_on_compiling_subjects (catalog : List CourseRecord)
    (j : Int) (subj fac : String) (h : literalOrDot subj = true) :
    ∃ v, recommend_courses catalog j subj fac = some (Except.ok v) :=
  recommend_ok_of_compiled (compile_of_literalOrDot h)

/-- Witness for C6: an empty subject, an unmatched faculty name and a
non-empty catalog still produce a defined result. -/
theorem C6_witness :
    ∃ v, recommend_courses demoCatalog 300 "" "NoSuchFaculty" =
      some (Except.ok v) :=
  C6_defined_result_on_compiling_subjects demoCatalog 300 "" "NoSuchFaculty" (by decide)

/-- C8: the matcher is a pure, deterministic function of the catalog and the
profile: it never writes the process-level catalog (the call leaves the
state unchanged) and two successive calls with the same profile return the
same result. -/
theorem C8_pure_deterministic (state : List CourseRecord) (j : Int)
    (subj fac : String) :
    (recommend_courses_proc state j subj fac).2 = state ∧
    (recommend_courses_proc ((recommend_courses_proc state j subj fac).2) j subj fac).1 =
      (recommend_courses_proc state j subj fac).1 :=
  ⟨rfl, rfl⟩

/-- C9 counterexample: a non-numeric score posted to the `download` route is
caught, but the handler answers with the HTTP-500 error branch — not with an
empty result set and status `not_found` as the claim states for every
handler. -/
theorem C9_counterexample :
    download_post demoCatalog ⟨ "abc", "Chemistry", "all"⟩ =
      some (DownloadResponse.serverError 500) := rfl

/-- C9 (amended): a non-numeric score is caught at the boundary of both
handlers and never crashes the process; the `index` handler degrades to an
empty result set with status `not_found`, while the `download` handler
instead returns its error response with HTTP status 500. -/
theorem C9_nonnumeric_score_boundary (catalog : List CourseRecord) (form : Form)
    (h : parseIntPy form.jamb = none) :
    index_post catalog form = some ([], "not_found") ∧
    download_post catalog form = some (DownloadResponse.serverError 500) := by
  refine ⟨?_, ?_⟩
  · unfold index_post
    rw [h]
  · unfold download_post
    rw [h]

/-- Witness for C9: the malformed score string `30O` is rejected in both
handlers. -/
theorem C9_witness :
    index_post demoCatalog ⟨ "30O", "Chemistry", "all"⟩ = some ([], "not_found") ∧
    download_post demoCatalog ⟨ "30O", "Chemistry", "all"⟩ =
      some (DownloadResponse.serverError 500) :=
  C9_nonnumeric_score_boundary demoCatalog ⟨ "30O", "Chemistry", "all"⟩ (by rfl)

/-- C10: every course in any defined result of the matcher — `found` or
`alternative` alike — satisfies `min_jamb ≤ score`; the score filter is
never relaxed, even in the fallback tier. -/
theorem C10_score_bound_invariant (catalog : List CourseRecord) (j : Int)
    (subj fac : String) (cs : List CourseRecord) (st : Status)
    (h : recommend_courses catalog j subj fac = some (Except.ok (cs, st))) :
    ∀ r ∈ cs, r.min_jamb ≤ j := by
  unfold recommend_courses at h
  split at h
  · simp only [Option.some.injEq, Except.ok.injEq, Prod.mk.injEq] at h
    obtain ⟨h1, h2⟩ := h
    subst h1
    intro r hr
    exact absurd hr (List.not_mem_nil r)
  · split at h
    · simp at h
    · simp at h
    · split at h
      · split at h
        · simp only [Option.some.injEq, Except.ok.injEq, Prod.mk.injEq] at h
          obtain ⟨h1, h2⟩ := h
          subst h1
          intro r hr
          exact absurd hr (List.not_mem_nil r)
        · simp only [Option.some.injEq, Except.ok.injEq, Prod.mk.injEq] at h
          obtain ⟨h1, h2⟩ := h
          subst h1
          intro r hr
          exact maskScore_le (List.of_mem_filter (mem_sortDesc.mp hr))
      · rename_i toks heq hres
        simp only [Option.some.injEq, Except.ok.injEq, Prod.mk.injEq] at h
        obtain ⟨h1, h2⟩ := h
        subst h1
        intro r hr
        exact maskScore_le (combinedMask_score (List.of_mem_filter (mem_sortDesc.mp hr)))

/-- Witness for C10: in the `found` scenario the returned Medicine record
meets the score bound 300. -/
theorem C10_witness : demoMed.min_jamb ≤ (300 : Int) :=
  C10_score_bound_invariant demoCatalog 300 "Chemistry" "all" [demoMed]
    Status.found (by rfl) demoMed (by simp)

end CourseApp
